import Mathlib

/-!
Verification of the EfiSocketLib IPv4 raw-socket adapter (StdLib/EfiSocketLib/Ip4.c).

The development shallowly embeds the receive engine (EslIp4RxStart,
EslIp4RxComplete, EslIp4Receive), the transmit engine (EslIp4TxBuffer,
EslIp4TxComplete) and the binding logic (EslIp4Bind, EslIp4Connect,
EslIp4GetLocalAddress, EslIp4GetRemoteAddress) as pure functions over
explicit state records.  Asynchronous driver behaviour (allocation results,
driver status codes) is passed in through environment records.  Socket and
port fields that the embedded code reads or writes are carried verbatim in
the state; the errno value that the C code stores into pSocket->errno is
surfaced in the result records of the operations that set it.
-/

/-- EFI status codes used by Ip4.c.  EFI_SUCCESS is `success`; every other
constructor corresponds to an error code (high bit set in the numeric
encoding), so the EFI_ERROR macro is modelled as inequality with
`success`. -/
inductive EfiStatus where
  | success
  | notReady
  | invalidParameter
  | unsupported
  | notStarted
  | networkUnreachable
  | hostUnreachable
  | portUnreachable
  | protocolUnreachable
  | outOfResources
  | accessDenied
  | deviceError
  | noMapping
  | aborted
  | notFound
deriving DecidableEq, Repr

/-- The EFI_ERROR macro: true for every status other than EFI_SUCCESS
(all non-success codes used in Ip4.c are error codes). -/
def isEfiError (s : EfiStatus) : Bool :=
  s != EfiStatus.success

/-- Socket error codes stored into pSocket->errno by Ip4.c; `ok`
represents errno value 0. -/
inductive Errno where
  | ok
  | eagain
  | eio
  | enotconn
  | einval
  | enomem
  | eaddrnotavail
  | enetunreach
  | ehostunreach
  | eprotonosupport
  | enoprotoopt
  | eacces
  | enobufs
  | eafnosupport
  | eopnotsupp
deriving DecidableEq, Repr

/-- Modelled from the spec: the socket connection state held in
pSocket->State ("unconnected / connected / rx-error", spec section 3).
The SOCKET_STATE enumeration lives in Socket.h which is not under src;
EslIp4Receive admits the connected state and the receive-error state
(the source compares pSocket->State against SOCKET_STATE_CONNECTED and
against the numerically overlapping PORT_STATE_RX_ERROR). -/
inductive SocketState where
  | unconnected
  | connected
  | rxError
deriving DecidableEq, Repr

/-- Modelled from the spec: ordering of the port close state machine from
Socket.h (not under src).  Ip4.c only compares port states for order, with
allocated and open below the receive-error state, which is below
close-started, which is below the close completion states. -/
def PORT_STATE_ALLOCATED : Nat := 0

/-- Port state: the port is open and operating. -/
def PORT_STATE_OPEN : Nat := 1

/-- Port state: a receive error was latched on the port. -/
def PORT_STATE_RX_ERROR : Nat := 2

/-- Port state: close processing has started on the port. -/
def PORT_STATE_CLOSE_STARTED : Nat := 3

/-- Port state: transmit close processing finished. -/
def PORT_STATE_CLOSE_TX_DONE : Nat := 4

/-- Port state: receive close processing finished. -/
def PORT_STATE_CLOSE_RX_DONE : Nat := 5

/-- Port state: the port close completed. -/
def PORT_STATE_CLOSE_DONE : Nat := 6

/-- Receive data descriptor delivered by the IP4 driver
(EFI_IP4_RECEIVE_DATA): header length, data length and the fragment
lengths of the fragment table. -/
structure RxData where
  headerLength : Nat
  dataLength : Nat
  fragments : List Nat
deriving DecidableEq, Repr

/-- Total bytes accounted for one datagram: HeaderLength + DataLength,
exactly the quantity added to RxBytes by EslIp4RxComplete (line 1552) and
subtracted by EslIp4Receive (lines 1247 and 1314). -/
def dataBytes (d : RxData) : Nat :=
  d.headerLength + d.dataLength

/-- Environment of one EslIp4RxStart call: whether
EslSocketPacketAllocate succeeds, and the status returned by the driver
Receive entry point. -/
structure RxEnv where
  allocOk : Bool
  receiveStatus : EfiStatus
deriving DecidableEq, Repr

/-- Modelled from the spec: the compile-time receive high-water constant
MAX_RX_DATA from the socket layer header (Socket.h, not under src).  It
is distinct from the per-socket configured maximum MaxRxBuf, which the
spec lists among the per-socket "high-water marks". -/
structure RxCfg where
  maxRxData : Nat
deriving DecidableEq, Repr

/-- State touched by the receive engine: the socket fields of ESL_SOCKET
and the port fields of ESL_PORT read or written by EslIp4RxStart,
EslIp4RxComplete and EslIp4Receive.  The receive FIFO with head and tail
pointers is a list (head first); the free packet list is kept as its
length; `outstanding` is ghost instrumentation counting the receive
tokens currently held by the IP4 driver (incremented when a driver
Receive call is accepted, decremented at completion). -/
structure RxState where
  State : SocketState
  hasPort : Bool
  portState : Nat
  bRxDisable : Bool
  RxError : EfiStatus
  RxBytes : Nat
  MaxRxBuf : Nat
  pRxPacketList : List RxData
  pRxFree : Nat
  pReceivePending : Bool
  outstanding : Nat
deriving DecidableEq, Repr

/-- Tail of EslIp4RxStart after a packet was obtained and marked pending
(lines 1706-1746): issue the driver receive; on driver failure latch the
first receive error, clear the pending marker and return the packet to
the free list. -/
def rxStartPost (env : RxEnv) (s : RxState) : RxState × Bool :=
  if isEfiError env.receiveStatus then
    ({ s with
        RxError := if isEfiError s.RxError then s.RxError else env.receiveStatus
        pReceivePending := false
        pRxFree := s.pRxFree + 1 }, false)
  else
    ({ s with outstanding := s.outstanding + 1 }, true)

/-- EslIp4RxStart (lines 1650-1751): post a receive buffer to the IP4
driver.  No-op when a sticky receive error is latched, a receive is
already pending, or close processing has started.  Otherwise a packet is
taken from the free list or freshly allocated, marked as the single
pending receive, and handed to the driver.  The Bool result reports
whether a receive was successfully posted. -/
def EslIp4RxStart (env : RxEnv) (s : RxState) : RxState × Bool :=
  if isEfiError s.RxError then (s, false)
  else if s.pReceivePending then (s, false)
  else if PORT_STATE_CLOSE_STARTED ≤ s.portState then (s, false)
  else if s.pRxFree != 0 then
    rxStartPost env { s with pRxFree := s.pRxFree - 1, pReceivePending := true }
  else if env.allocOk then
    rxStartPost env { s with pReceivePending := true }
  else (s, false)

/-- EslIp4RxComplete (lines 1501-1631): clear the pending receive; on a
successful completion with receive enabled and the port not past
close-started, append the datagram to the receive FIFO, add
HeaderLength + DataLength to RxBytes and restart the receive engine only
while RxBytes stays below MaxRxBuf.  On failure free the packet, latch
the first receive error and move the port to the receive-error state
(or finish the receive side of the close state machine when closing).
The Bool result reports whether a new receive was posted. -/
def EslIp4RxComplete (env : RxEnv) (status : EfiStatus) (rxData : RxData)
    (s : RxState) : RxState × Bool :=
  let s0 := { s with pReceivePending := false, outstanding := s.outstanding - 1 }
  if !isEfiError status && !s0.bRxDisable then
    if s0.portState ≤ PORT_STATE_CLOSE_STARTED then
      let s1 := { s0 with
        pRxPacketList := s0.pRxPacketList ++ [rxData]
        RxBytes := s0.RxBytes + dataBytes rxData }
      if s1.RxBytes < s1.MaxRxBuf then EslIp4RxStart env s1 else (s1, false)
    else
      (s0, false)
  else
    let s1 := { s0 with
      RxError := if isEfiError s0.RxError then s0.RxError else status }
    if PORT_STATE_CLOSE_STARTED ≤ s1.portState then
      ({ s1 with portState := PORT_STATE_CLOSE_RX_DONE }, false)
    else if isEfiError status then
      ({ s1 with portState := PORT_STATE_RX_ERROR }, false)
    else (s1, false)

/-- Mapping of a latched receive status to errno in EslIp4Receive
(lines 1380-1400): the four unreachable statuses have dedicated codes,
every other error maps to EIO. -/
def mapRxErrno (st : EfiStatus) : Errno :=
  match st with
  | EfiStatus.hostUnreachable => Errno.ehostunreach
  | EfiStatus.networkUnreachable => Errno.enetunreach
  | EfiStatus.portUnreachable => Errno.eprotonosupport
  | EfiStatus.protocolUnreachable => Errno.enoprotoopt
  | _ => Errno.eio

/-- Fragment copy loop of EslIp4Receive (lines 1273-1296): while the
buffer is not yet full, copy from the next fragment, clipped to the
remaining buffer space.  The C loop assumes the fragment table covers
the remaining buffer; when the fragment list runs out the model stops. -/
def copyFragments (frags : List Nat) (bufferLength lengthInBytes : Nat) : Nat :=
  match frags with
  | [] => lengthInBytes
  | f :: rest =>
    if lengthInBytes < bufferLength then
      copyFragments rest bufferLength (lengthInBytes + min f (bufferLength - lengthInBytes))
    else lengthInBytes

/-- Number of bytes EslIp4Receive copies into the caller buffer
(lines 1244-1296): the buffer length is clipped to the datagram size,
the IP header is copied first, then the fragment loop fills the rest. -/
def receivedLength (d : RxData) (bufferLength : Nat) : Nat :=
  let bufLen := min bufferLength (dataBytes d)
  let headerBytes := min d.headerLength bufLen
  copyFragments d.fragments bufLen headerBytes

/-- Result of one EslIp4Receive call: returned status, the value stored
into pSocket->errno, and the value stored through pDataLength (none when
the call fails before writing it). -/
structure RxResult where
  Status : EfiStatus
  errno : Errno
  pDataLength : Option Nat
deriving DecidableEq, Repr

/-- EslIp4Receive (lines 1145-1416): deliver the head datagram of the
receive FIFO.  Fails NotConnected unless the socket is connected or in
the receive-error state and owns a port.  On an empty FIFO the latched
receive error is consumed and returned once, otherwise NotReady.  A
non-peek delivery subtracts the full HeaderLength + DataLength from
RxBytes even when only part was copied, removes the packet from the
FIFO, returns it to the free list and restarts the receive engine if no
receive is pending and RxBytes is below MAX_RX_DATA (cfg.maxRxData).
`addrOk` is the address parameter validity check of line 1200.  The Bool
result reports whether a new receive was posted. -/
def EslIp4Receive (cfg : RxCfg) (env : RxEnv) (peek : Bool)
    (bufferLength : Nat) (addrOk : Bool) (s : RxState) :
    RxState × RxResult × Bool :=
  if s.State = SocketState.connected ∨ s.State = SocketState.rxError then
    if s.hasPort then
      match s.pRxPacketList with
      | d :: rest =>
        if addrOk then
          let lengthInBytes := receivedLength d bufferLength
          if peek then
            (s, ⟨EfiStatus.success, Errno.ok, some lengthInBytes⟩, false)
          else
            let s1 := { s with
              RxBytes := s.RxBytes - dataBytes d
              pRxPacketList := rest
              pRxFree := s.pRxFree + 1 }
            let r :=
              if s1.pReceivePending = false ∧ s1.RxBytes < cfg.maxRxData then
                EslIp4RxStart env s1
              else (s1, false)
            (r.1, ⟨EfiStatus.success, Errno.ok, some lengthInBytes⟩, r.2)
        else (s, ⟨EfiStatus.invalidParameter, Errno.einval, none⟩, false)
      | [] =>
        if isEfiError s.RxError then
          ({ s with RxError := EfiStatus.success },
           ⟨s.RxError, mapRxErrno s.RxError, none⟩, false)
        else (s, ⟨EfiStatus.notReady, Errno.eagain, none⟩, false)
    else (s, ⟨EfiStatus.unsupported, Errno.enotconn, none⟩, false)
  else (s, ⟨EfiStatus.unsupported, Errno.enotconn, none⟩, false)

/-- Environment of one EslIp4TxBuffer call: the status returned by
EslSocketPacketAllocate (success means a packet was allocated). -/
structure TxEnv where
  allocStatus : EfiStatus
deriving DecidableEq, Repr

/-- State touched by the transmit engine: the socket fields of
ESL_SOCKET and the port fields of ESL_PORT read or written by
EslIp4TxBuffer and EslIp4TxComplete.  Packets are represented by their
payload length (TotalDataLength); the socket transmit FIFO and the port
active-transmit list are lists (head first); the free transmit I/O slot
list is kept as its length.  TxBytes is carried as an integer so that
the accounting can be reasoned about exactly; `allocCount` is ghost
instrumentation counting packet allocations. -/
structure TxState where
  State : SocketState
  hasPort : Bool
  TxError : EfiStatus
  TxBytes : Int
  MaxTxBuf : Int
  pTxPacketList : List Nat
  pTxActive : List Nat
  txFreeSlots : Nat
  allocCount : Nat
deriving DecidableEq, Repr

/-- Result of one EslIp4TxBuffer call: returned status, the value stored
into pSocket->errno, and the value stored through pDataLength. -/
structure TxResult where
  Status : EfiStatus
  errno : Errno
  pDataLength : Nat
deriving DecidableEq, Repr

/-- Modelled from the spec: the generic transmit-start helper
EslSocketTxStart (Socket.c, not under src) moves the head packet of the
socket transmit FIFO onto the port active-transmit list, consuming one
free transmit I/O slot; it does not change TxBytes. -/
def EslSocketTxStart (s : TxState) : TxState :=
  match s.pTxPacketList with
  | [] => s
  | p :: rest =>
    if s.txFreeSlots != 0 then
      { s with
          pTxPacketList := rest
          pTxActive := s.pTxActive ++ [p]
          txFreeSlots := s.txFreeSlots - 1 }
    else s

/-- EslIp4TxBuffer (lines 2043-2244): fails NotConnected unless the
socket is connected and owns a port; fails NotReady/EAGAIN before any
allocation when TxBytes already reached MaxTxBuf; otherwise allocates a
packet sized to the payload and, when no sticky transmit error is
latched, appends it to the transmit FIFO, adds the payload length to
TxBytes and starts the transmit engine if a free slot exists.  When a
sticky transmit error is latched the packet is freed and the latched
status is returned with errno EIO; the latched error is left in place
(the source contains no assignment clearing pSocket->TxError). -/
def EslIp4TxBuffer (env : TxEnv) (bufferLength : Nat) (s : TxState) :
    TxState × TxResult :=
  if s.State = SocketState.connected then
    if s.hasPort then
      if s.TxBytes < s.MaxTxBuf then
        if isEfiError env.allocStatus then
          (s, ⟨env.allocStatus, Errno.enomem, 0⟩)
        else
          let s1 := { s with allocCount := s.allocCount + 1 }
          if isEfiError s1.TxError then
            (s1, ⟨s1.TxError, Errno.eio, 0⟩)
          else
            let s2 := { s1 with
              pTxPacketList := s1.pTxPacketList ++ [bufferLength]
              TxBytes := s1.TxBytes + bufferLength }
            let s3 := if s2.txFreeSlots != 0 then EslSocketTxStart s2 else s2
            (s3, ⟨EfiStatus.success, Errno.ok, bufferLength⟩)
      else (s, ⟨EfiStatus.notReady, Errno.eagain, 0⟩)
    else (s, ⟨EfiStatus.unsupported, Errno.enotconn, 0⟩)
  else (s, ⟨EfiStatus.unsupported, Errno.enotconn, 0⟩)

/-- EslIp4TxComplete (lines 2261-2300) completing the i-th packet of the
port active-transmit list: subtract the packet TotalDataLength from
TxBytes, then (modelled from the spec, EslSocketTxComplete in Socket.c
is not under src) return the I/O slot to the free list, drop the packet
from the active list and pump the next queued packet if available.
When no such active packet exists no completion can occur and the state
is returned unchanged. -/
def EslIp4TxComplete (i : Nat) (s : TxState) : TxState :=
  match s.pTxActive[i]? with
  | none => s
  | some len =>
    EslSocketTxStart
      { s with
          TxBytes := s.TxBytes - len
          pTxActive := s.pTxActive.eraseIdx i
          txFreeSlots := s.txFreeSlots + 1 }

/-- One step of the transmit engine: an application EslIp4TxBuffer call
with an arbitrary environment and payload, or a driver completion of an
existing active packet. -/
inductive TxStep : TxState → TxState → Prop where
  | buffer (env : TxEnv) (bufferLength : Nat) (s : TxState) :
      TxStep s (EslIp4TxBuffer env bufferLength s).1
  | complete (i : Nat) (s : TxState) (h : i < s.pTxActive.length) :
      TxStep s (EslIp4TxComplete i s)

/-- Initial transmit state of a freshly configured connected socket:
no buffered or active packets and a zero byte counter. -/
def txInit (maxTxBuf : Int) (slots : Nat) : TxState :=
  { State := SocketState.connected
    hasPort := true
    TxError := EfiStatus.success
    TxBytes := 0
    MaxTxBuf := maxTxBuf
    pTxPacketList := []
    pTxActive := []
    txFreeSlots := slots
    allocCount := 0 }

/-- Transmit states reachable from the initial state by transmit steps. -/
inductive TxReachable (maxTxBuf : Int) (slots : Nat) : TxState → Prop where
  | init : TxReachable maxTxBuf slots (txInit maxTxBuf slots)
  | step {s s2 : TxState} : TxReachable maxTxBuf slots s → TxStep s s2 →
      TxReachable maxTxBuf slots s2

/-- Transmit accounting invariant: TxBytes equals the total length of
the buffered and in-flight packets. -/
def TxInv (s : TxState) : Prop :=
  s.TxBytes = ((s.pTxPacketList.sum + s.pTxActive.sum : Nat) : Int)

/-- An IPv4 address as the four bytes of the EFI_IPv4_ADDRESS Addr
array. -/
structure Ip4Addr where
  addr0 : Nat
  addr1 : Nat
  addr2 : Nat
  addr3 : Nat
deriving DecidableEq, Repr

/-- Byte split performed by EslIp4Connect (lines 308-311) and
EslIp4TxBuffer (lines 2127-2130): Addr[k] receives byte k of the 32-bit
sin_addr value, i.e. its little-endian memory image on the target. -/
def ip4AddrOfWord (x : Nat) : Ip4Addr :=
  ⟨x % 256, x / 256 % 256, x / 65536 % 256, x / 16777216 % 256⟩

/-- Inverse byte assembly performed by the CopyMem of the four Addr
bytes into the 32-bit sin_addr field (EslIp4GetRemoteAddress lines
479-481, EslIp4GetLocalAddress lines 398-400) on the little-endian
target. -/
def wordOfIp4Addr (a : Ip4Addr) : Nat :=
  a.addr0 + 256 * a.addr1 + 65536 * a.addr2 + 16777216 * a.addr3

/-- Modelled from the spec: struct sockaddr_in of the C library headers
(not under src), with the 32-bit sin_addr value kept as a number. -/
structure SockAddrIn where
  sin_len : Nat
  sin_family : Nat
  sin_port : Nat
  sin_addr : Nat
deriving DecidableEq, Repr

/-- Modelled from the spec: the AF_INET address family tag from the C
library headers (not under src). -/
def AF_INET : Nat := 2

/-- Modelled from the spec: sizeof(struct sockaddr_in) = 16 bytes on the
target (1 + 1 + 2 + 4 + 8 bytes of sin_zero padding). -/
def sizeofSockAddrIn : Nat := 16

/-- Modelled from the spec: the minimum accepted address length,
sizeof(struct sockaddr_in) - sizeof(sin_zero) = 8, used by the length
checks of EslIp4Bind (line 135) and EslIp4Connect (line 281). -/
def minSockAddrInLength : Nat := 8

/-- Port fields of ESL_PORT relevant to binding and the address queries:
the destination address set by EslIp4Connect, and the station address
and default-address flag set by EslIp4PortAllocate. -/
structure ConnPort where
  DestinationAddress : Ip4Addr
  StationAddress : Ip4Addr
  UseDefaultAddress : Bool
deriving DecidableEq, Repr

/-- Socket fields relevant to binding: the owned port list (most
recently allocated port first, matching the prepend of
EslIp4PortAllocate lines 936-937) and errno. -/
structure ConnSocket where
  pPortList : List ConnPort
  errno : Errno
deriving DecidableEq, Repr

/-- Port built by EslIp4PortAllocate (lines 757-970): the structure is
zeroed, so the destination address starts as 0.0.0.0; an all-zero local
address selects UseDefaultAddress, any other address becomes the
station address. -/
def newIp4Port (localAddr : SockAddrIn) : ConnPort :=
  let a := ip4AddrOfWord localAddr.sin_addr
  if a = ⟨0, 0, 0, 0⟩ then
    { DestinationAddress := ⟨0, 0, 0, 0⟩
      StationAddress := ⟨0, 0, 0, 0⟩
      UseDefaultAddress := true }
  else
    { DestinationAddress := ⟨0, 0, 0, 0⟩
      StationAddress := a
      UseDefaultAddress := false }

/-- Service walk of EslIp4Bind (lines 139-198): one iteration per
registered IPv4 service; a service whose child creation and port
allocation succeed (its Bool is true) prepends a new port, a failed
service leaves an error status behind (represented by deviceError). -/
def bindWalk (localAddr : SockAddrIn) :
    List Bool → ConnSocket × EfiStatus → ConnSocket × EfiStatus
  | [], acc => acc
  | ok :: rest, acc =>
    bindWalk localAddr rest
      (if ok then
        ({ acc.1 with pPortList := newIp4Port localAddr :: acc.1.pPortList },
         EfiStatus.success)
      else (acc.1, EfiStatus.deviceError))

/-- EslIp4Bind (lines 102-228): after validating the address length,
walk the registered IPv4 services creating one port per successful
service; fails with EADDRNOTAVAIL and EFI_INVALID_PARAMETER when no
port was produced. -/
def EslIp4Bind (services : List Bool) (localAddr : SockAddrIn)
    (sockAddrLength : Nat) (s : ConnSocket) : ConnSocket × EfiStatus :=
  let s0 := { s with errno := Errno.ok }
  if minSockAddrInLength ≤ sockAddrLength then
    let r := bindWalk localAddr services (s0, EfiStatus.success)
    if r.1.pPortList = [] then
      ({ r.1 with errno := Errno.eaddrnotavail }, EfiStatus.invalidParameter)
    else r
  else ({ s0 with errno := Errno.einval }, EfiStatus.invalidParameter)

/-- Modelled from the spec: the generic socket-layer bind entry point
EslSocketBind (Socket.c, not under src) dispatches to the protocol bind
of the cEslIp4Api table, i.e. EslIp4Bind, and surfaces its status and
the errno the callee stored in the socket. -/
def EslSocketBind (services : List Bool) (localAddr : SockAddrIn)
    (sockAddrLength : Nat) (s : ConnSocket) : ConnSocket × EfiStatus :=
  EslIp4Bind services localAddr sockAddrLength s

/-- EslIp4Connect (lines 252-338): after validating the address length,
bind implicitly to the wildcard local address when the socket owns no
ports, then store the four bytes of the remote sin_addr into the
destination address of every owned port; the walk leaves success and
errno 0 exactly when at least one port exists, otherwise the status of
the implicit bind (or the initial network-unreachable assumption when
no bind ran) is returned. -/
def EslIp4Connect (services : List Bool) (remote : SockAddrIn)
    (sockAddrLength : Nat) (s : ConnSocket) : ConnSocket × EfiStatus :=
  let s0 := { s with errno := Errno.enetunreach }
  if minSockAddrInLength ≤ sockAddrLength then
    let br :=
      if s0.pPortList = [] then
        EslSocketBind services ⟨sizeofSockAddrIn, AF_INET, 0, 0⟩
          sizeofSockAddrIn s0
      else (s0, EfiStatus.networkUnreachable)
    if br.1.pPortList = [] then br
    else
      let dest := ip4AddrOfWord remote.sin_addr
      ({ br.1 with
          pPortList := br.1.pPortList.map
            (fun p => { p with DestinationAddress := dest })
          errno := Errno.ok }, EfiStatus.success)
  else ({ s0 with errno := Errno.einval }, EfiStatus.invalidParameter)

/-- Result of an address query: returned status, the value stored into
pSocket->errno, and the sockaddr_in written into the caller buffer
(none when the buffer is left unwritten). -/
structure AddrResult where
  Status : EfiStatus
  errno : Errno
  address : Option SockAddrIn
deriving DecidableEq, Repr

/-- EslIp4GetRemoteAddress (lines 441-500): requires the socket to own
exactly one port and the caller buffer to hold a sockaddr_in; on
success the buffer is zeroed and filled with AF_INET, the structure
length and the four destination address bytes assembled into sin_addr;
otherwise the buffer is left unwritten with EFI_NOT_STARTED and
ENOTCONN (zero or several ports) or EFI_INVALID_PARAMETER and EINVAL
(short buffer). -/
def EslIp4GetRemoteAddress (addressLength : Nat) (s : ConnSocket) :
    ConnSocket × AddrResult :=
  match s.pPortList with
  | [p] =>
    if sizeofSockAddrIn ≤ addressLength then
      ({ s with errno := Errno.ok },
       ⟨EfiStatus.success, Errno.ok,
        some ⟨sizeofSockAddrIn, AF_INET, 0, wordOfIp4Addr p.DestinationAddress⟩⟩)
    else
      ({ s with errno := Errno.einval },
       ⟨EfiStatus.invalidParameter, Errno.einval, none⟩)
  | _ =>
    ({ s with errno := Errno.enotconn },
     ⟨EfiStatus.notStarted, Errno.enotconn, none⟩)

/-- EslIp4GetLocalAddress (lines 360-419): identical shape to the remote
address query, returning the configured station address bytes. -/
def EslIp4GetLocalAddress (addressLength : Nat) (s : ConnSocket) :
    ConnSocket × AddrResult :=
  match s.pPortList with
  | [p] =>
    if sizeofSockAddrIn ≤ addressLength then
      ({ s with errno := Errno.ok },
       ⟨EfiStatus.success, Errno.ok,
        some ⟨sizeofSockAddrIn, AF_INET, 0, wordOfIp4Addr p.StationAddress⟩⟩)
    else
      ({ s with errno := Errno.einval },
       ⟨EfiStatus.invalidParameter, Errno.einval, none⟩)
  | _ =>
    ({ s with errno := Errno.enotconn },
     ⟨EfiStatus.notStarted, Errno.enotconn, none⟩)

/-- Receive engine invariant: RxBytes equals the total
HeaderLength + DataLength of the queued datagrams, and the ghost driver
token count mirrors the single pending-receive slot. -/
def RxInv (s : RxState) : Prop :=
  s.RxBytes = (s.pRxPacketList.map dataBytes).sum ∧
  s.outstanding = (if s.pReceivePending then 1 else 0)

/-- One step of the receive engine: an EslIp4RxStart call (from
EslIp4SocketIsConfigured), a driver completion (which can only occur
while a receive is pending at the driver), an application EslIp4Receive
call, the start of port close processing, or a receive shutdown. -/
inductive RxStep (cfg : RxCfg) : RxState → RxState → Prop where
  | start (env : RxEnv) (s : RxState) :
      RxStep cfg s (EslIp4RxStart env s).1
  | complete (env : RxEnv) (status : EfiStatus) (rxData : RxData)
      (s : RxState) (h : s.pReceivePending = true) :
      RxStep cfg s (EslIp4RxComplete env status rxData s).1
  | recv (env : RxEnv) (peek : Bool) (bufferLength : Nat) (addrOk : Bool)
      (s : RxState) :
      RxStep cfg s (EslIp4Receive cfg env peek bufferLength addrOk s).1
  | closeStart (s : RxState) :
      RxStep cfg s { s with portState := PORT_STATE_CLOSE_STARTED }
  | disableRx (s : RxState) :
      RxStep cfg s { s with bRxDisable := true }

/-- Initial receive state of a freshly configured connected socket: an
open port, empty receive FIFO, zero byte counter and no pending
receive. -/
def rxInit (maxRxBuf : Nat) : RxState :=
  { State := SocketState.connected
    hasPort := true
    portState := PORT_STATE_OPEN
    bRxDisable := false
    RxError := EfiStatus.success
    RxBytes := 0
    MaxRxBuf := maxRxBuf
    pRxPacketList := []
    pRxFree := 0
    pReceivePending := false
    outstanding := 0 }

/-- Receive states reachable from the initial state by receive steps. -/
inductive RxReachable (cfg : RxCfg) (maxRxBuf : Nat) : RxState → Prop where
  | init : RxReachable cfg maxRxBuf (rxInit maxRxBuf)
  | step {s s2 : RxState} : RxReachable cfg maxRxBuf s → RxStep cfg s s2 →
      RxReachable cfg maxRxBuf s2

/-- Receive configuration with the 64 KiB MAX_RX_DATA value of the
socket layer header. -/
def rxCfg64 : RxCfg := ⟨65536⟩

/-- Benign receive environment: allocation succeeds and the driver
accepts the receive. -/
def rxEnvOk : RxEnv := ⟨true, EfiStatus.success⟩

/-- A 30000-byte datagram (20-byte header, 29980 data bytes in one
fragment). -/
def rxDatagramA : RxData := ⟨20, 29980, [29980]⟩

/-- A 1000-byte datagram (20-byte header, 980 data bytes). -/
def rxDatagramB : RxData := ⟨20, 980, [980]⟩

/-- A 120-byte datagram (20-byte header, 100 data bytes). -/
def rxDatagramC : RxData := ⟨20, 100, [100]⟩

/-- Suspended receive state of a socket whose configured maximum
(MaxRxBuf, raised above the compile-time constant) has been reached:
100000 outstanding bytes, one 30000-byte datagram queued, no receive
pending. -/
def rxStateC1 : RxState :=
  { State := SocketState.connected
    hasPort := true
    portState := PORT_STATE_OPEN
    bRxDisable := false
    RxError := EfiStatus.success
    RxBytes := 100000
    MaxRxBuf := 100000
    pRxPacketList := [rxDatagramA]
    pRxFree := 0
    pReceivePending := false
    outstanding := 0 }

/-- Receive state holding one 1000-byte datagram with no receive
pending. -/
def rxStateC1W : RxState :=
  { rxStateC1 with
      RxBytes := 1000
      MaxRxBuf := 65536
      pRxPacketList := [rxDatagramB] }

/-- Receive state holding one 120-byte datagram. -/
def rxStateC3 : RxState :=
  { rxStateC1 with
      RxBytes := 120
      MaxRxBuf := 65536
      pRxPacketList := [rxDatagramC] }

/-- Receive state with a receive pending at the driver. -/
def rxStateC4 : RxState :=
  { rxStateC1 with
      RxBytes := 0
      MaxRxBuf := 65536
      pRxPacketList := []
      pReceivePending := true
      outstanding := 1 }

/-- Receive state with an empty FIFO and a latched receive error. -/
def rxStateC5 : RxState :=
  { rxStateC1 with
      RxBytes := 0
      MaxRxBuf := 65536
      pRxPacketList := []
      RxError := EfiStatus.deviceError }

/-- Benign transmit environment: packet allocation succeeds. -/
def txEnvOk : TxEnv := ⟨EfiStatus.success⟩

/-- Transmit state of a connected socket with a latched transmit error
and room in the transmit buffer. -/
def txStateC2 : TxState :=
  { txInit 131072 1 with TxError := EfiStatus.deviceError }

/-- Transmit state whose outstanding byte counter has reached the
configured maximum. -/
def txStateC6 : TxState :=
  { txInit 131072 1 with TxBytes := 131072 }

/-- Transmit state with one 10-byte packet in flight. -/
def txStateC7 : TxState :=
  { txInit 131072 1 with TxBytes := 10, pTxActive := [10], txFreeSlots := 0 }

/-- Unbound socket with no ports. -/
def connSockEmpty : ConnSocket := ⟨[], Errno.ok⟩

/-- Port bound through the wildcard address. -/
def connPortW : ConnPort := ⟨⟨0, 0, 0, 0⟩, ⟨0, 0, 0, 0⟩, true⟩

/-- Socket owning exactly one port. -/
def connSockOne : ConnSocket := ⟨[connPortW], Errno.ok⟩

/-- Socket owning two ports, as EslIp4Bind creates when two IPv4
services are registered. -/
def connSockTwo : ConnSocket := ⟨[connPortW, connPortW], Errno.ok⟩

/-- Remote sockaddr_in with the given 32-bit sin_addr value. -/
def remoteAddr (x : Nat) : SockAddrIn := ⟨sizeofSockAddrIn, AF_INET, 0, x⟩

/-- EslIp4RxStart does not change the byte counter or the receive FIFO. -/
theorem rxStart_frame (env : RxEnv) (s : RxState) :
    (EslIp4RxStart env s).1.RxBytes = s.RxBytes ∧
    (EslIp4RxStart env s).1.pRxPacketList = s.pRxPacketList := by
  unfold EslIp4RxStart rxStartPost
  split_ifs <;> exact ⟨rfl, rfl⟩

/-- EslIp4RxStart preserves the receive engine invariant. -/
theorem rxStart_inv (env : RxEnv) (s : RxState) (h : RxInv s) :
    RxInv (EslIp4RxStart env s).1 := by
  obtain ⟨h1, h2⟩ := h
  unfold RxInv EslIp4RxStart rxStartPost
  split_ifs with hA hB hC hD hE hF hG <;> simp_all

/-- EslIp4RxComplete preserves the receive engine invariant whenever the
completion fires on a pending receive. -/
theorem rxComplete_inv (env : RxEnv) (status : EfiStatus) (rxData : RxData)
    (s : RxState) (hpend : s.pReceivePending = true) (h : RxInv s) :
    RxInv (EslIp4RxComplete env status rxData s).1 := by
  obtain ⟨h1, h2⟩ := h
  rw [hpend] at h2
  simp only [EslIp4RxComplete]
  split_ifs <;>
    first
      | (refine rxStart_inv env _ ⟨?_, ?_⟩ <;> simp [h1, h2, dataBytes])
      | (refine ⟨?_, ?_⟩ <;> simp [h1, h2, dataBytes])

/-- EslIp4Receive preserves the receive engine invariant. -/
theorem receive_inv (cfg : RxCfg) (env : RxEnv) (peek : Bool)
    (bufferLength : Nat) (addrOk : Bool) (s : RxState) (h : RxInv s) :
    RxInv (EslIp4Receive cfg env peek bufferLength addrOk s).1 := by
  obtain ⟨h1, h2⟩ := h
  cases hq : s.pRxPacketList with
  | nil =>
    rw [hq] at h1
    simp only [EslIp4Receive, hq]
    split_ifs <;> (refine ⟨?_, ?_⟩ <;> simp_all)
  | cons d rest =>
    rw [hq] at h1
    simp only [EslIp4Receive, hq]
    split_ifs <;>
      first
        | (refine rxStart_inv env _ ⟨?_, ?_⟩ <;> simp_all [dataBytes])
        | (refine ⟨?_, ?_⟩ <;> simp_all [dataBytes])

/-- Every reachable receive state satisfies the receive engine
invariant. -/
theorem rxInv_reachable (cfg : RxCfg) (m : Nat) (s : RxState)
    (h : RxReachable cfg m s) : RxInv s := by
  induction h with
  | init => exact ⟨rfl, rfl⟩
  | step hr hst ih =>
    cases hst with
    | start env => exact rxStart_inv env _ ih
    | complete env status rxData =>
      rename_i hp
      exact rxComplete_inv env status rxData _ hp ih
    | recv env peek bufferLength addrOk =>
      exact receive_inv cfg env peek bufferLength addrOk _ ih
    | closeStart => exact ⟨ih.1, ih.2⟩
    | disableRx => exact ⟨ih.1, ih.2⟩

/-- EslIp4RxStart changes nothing and posts nothing when a receive is
already pending, close processing has started, or a sticky receive error
is latched (lines 1670-1672). -/
theorem rxStart_noop (env : RxEnv) (s : RxState)
    (h : s.pReceivePending = true ∨ PORT_STATE_CLOSE_STARTED ≤ s.portState ∨
         isEfiError s.RxError = true) :
    EslIp4RxStart env s = (s, false) := by
  unfold EslIp4RxStart
  rcases h with h | h | h <;> split_ifs <;> simp_all

/-- EslIp4RxStart never overwrites an already latched receive error. -/
theorem rxStart_RxError (env : RxEnv) (s : RxState)
    (h : isEfiError s.RxError = true) :
    (EslIp4RxStart env s).1.RxError = s.RxError := by
  unfold EslIp4RxStart rxStartPost
  split_ifs <;> simp_all

/-- The fragment copy loop fills the buffer exactly when the fragments
cover the remaining space. -/
theorem copyFragments_reach (frags : List Nat) :
    ∀ L cur, cur ≤ L → L ≤ cur + frags.sum → copyFragments frags L cur = L := by
  induction frags with
  | nil =>
    intro L cur h1 h2
    simp only [copyFragments, List.sum_nil] at *
    omega
  | cons f rest ih =>
    intro L cur h1 h2
    simp only [copyFragments, List.sum_cons] at *
    split_ifs with hc
    · exact ih L _ (by omega) (by omega)
    · omega

/-- When the fragment table covers DataLength, EslIp4Receive copies
exactly min(BufferLength, HeaderLength + DataLength) bytes. -/
theorem receivedLength_min (d : RxData) (bufferLength : Nat)
    (hf : d.fragments.sum = d.dataLength) :
    receivedLength d bufferLength = min bufferLength (dataBytes d) := by
  simp only [receivedLength]
  apply copyFragments_reach
  · omega
  · rw [hf]
    simp only [dataBytes]
    omega

/-- Claim C1 (amended): once RxBytes is at or above MaxRxBuf,
EslIp4RxComplete posts no new receive; after a non-peek EslIp4Receive
call drops RxBytes below the compile-time constant MAX_RX_DATA (not the
configured MaxRxBuf), exactly one new receive is posted provided none is
pending, no sticky receive error is latched, the port is not closing and
the driver accepts the receive. -/
theorem claim_C1_theorem :
    (∀ env status rxData s, s.MaxRxBuf ≤ s.RxBytes →
        (EslIp4RxComplete env status rxData s).2 = false) ∧
    (∀ cfg env bufferLength d rest s,
        s.State = SocketState.connected → s.hasPort = true →
        s.pRxPacketList = d :: rest → s.pReceivePending = false →
        s.RxError = EfiStatus.success →
        s.portState < PORT_STATE_CLOSE_STARTED →
        env.receiveStatus = EfiStatus.success →
        s.RxBytes - dataBytes d < cfg.maxRxData →
        (EslIp4Receive cfg env false bufferLength true s).2.2 = true ∧
        (EslIp4Receive cfg env false bufferLength true s).1.pReceivePending = true) := by
  constructor
  · intro env status rxData s hmax
    simp only [EslIp4RxComplete]
    split_ifs <;> first | rfl | omega
  · intro cfg env bufferLength d rest s h1 h2 h3 h4 h5 h6 h7 h8
    simp only [EslIp4Receive, h3, h1, h2]
    simp only [EslIp4RxStart, rxStartPost, h4, h5, h7]
    split_ifs <;> first | omega | simp_all [isEfiError]

/-- Claim C3: RxBytes always equals the sum of the queued datagram
header+data lengths (so bytes removed by Receive balance bytes added by
RxComplete over every operation sequence); a successful RxComplete adds
exactly HeaderLength + DataLength; a non-peek Receive subtracts the full
datagram length even when the caller buffer is shorter, removes the
datagram from the queue so its remainder can never be delivered later,
and reports min(BufferLength, datagram length) copied bytes. -/
theorem claim_C3_theorem :
    (∀ cfg m s, RxReachable cfg m s →
        s.RxBytes = (s.pRxPacketList.map dataBytes).sum) ∧
    (∀ env status rxData s, s.pReceivePending = true →
        isEfiError status = false → s.bRxDisable = false →
        s.portState ≤ PORT_STATE_CLOSE_STARTED →
        (EslIp4RxComplete env status rxData s).1.RxBytes
          = s.RxBytes + dataBytes rxData) ∧
    (∀ cfg env bufferLength d rest s,
        s.State = SocketState.connected → s.hasPort = true →
        s.pRxPacketList = d :: rest →
        (EslIp4Receive cfg env false bufferLength true s).1.RxBytes
            = s.RxBytes - dataBytes d ∧
        (EslIp4Receive cfg env false bufferLength true s).1.pRxPacketList = rest ∧
        (d.fragments.sum = d.dataLength →
          (EslIp4Receive cfg env false bufferLength true s).2.1.pDataLength
            = some (min bufferLength (dataBytes d)))) := by
  refine ⟨fun cfg m s h => (rxInv_reachable cfg m s h).1, ?_, ?_⟩
  · intro env status rxData s hp hst hdis hps
    simp only [EslIp4RxComplete]
    split_ifs <;>
      first
        | (rw [(rxStart_frame _ _).1])
        | rfl
        | simp_all
  · intro cfg env bufferLength d rest s h1 h2 h3
    refine ⟨?_, ?_, ?_⟩
    · simp only [EslIp4Receive, h3, h1, h2]
      split_ifs <;> simp_all [(rxStart_frame _ _).1]
    · simp only [EslIp4Receive, h3, h1, h2]
      split_ifs <;> simp_all [(rxStart_frame _ _).2]
    · intro hf
      simp only [EslIp4Receive, h3, h1, h2]
      split_ifs <;> simp_all [receivedLength_min d bufferLength hf]

/-- Claim C1 counterexample: on a socket whose configured MaxRxBuf
(100000) exceeds MAX_RX_DATA (65536), a non-peek Receive drops RxBytes
from 100000 to 70000 - below the configured maximum, with no receive
pending - yet no new receive is posted, because the restart check of
EslIp4Receive compares RxBytes with MAX_RX_DATA, not MaxRxBuf. -/
theorem claim_C1_counterexample :
    rxStateC1.MaxRxBuf ≤ rxStateC1.RxBytes ∧
    rxStateC1.pReceivePending = false ∧
    (EslIp4Receive rxCfg64 rxEnvOk false 65536 true rxStateC1).1.RxBytes
      < rxStateC1.MaxRxBuf ∧
    (EslIp4Receive rxCfg64 rxEnvOk false 65536 true rxStateC1).1.pReceivePending
      = false ∧
    (EslIp4Receive rxCfg64 rxEnvOk false 65536 true rxStateC1).2.2 = false := by
  decide

/-- Claim C1 witness: concrete instances of both parts of the amended
claim. -/
theorem claim_C1_witness :
    (EslIp4RxComplete rxEnvOk EfiStatus.success rxDatagramC rxStateC1).2 = false ∧
    (EslIp4Receive rxCfg64 rxEnvOk false 4096 true rxStateC1W).2.2 = true ∧
    (EslIp4Receive rxCfg64 rxEnvOk false 4096 true rxStateC1W).1.pReceivePending
      = true := by
  refine ⟨claim_C1_theorem.1 rxEnvOk EfiStatus.success rxDatagramC rxStateC1
      (by decide), ?_, ?_⟩
  · exact (claim_C1_theorem.2 rxCfg64 rxEnvOk 4096 rxDatagramB [] rxStateC1W
      rfl rfl rfl rfl rfl (by decide) rfl (by decide)).1
  · exact (claim_C1_theorem.2 rxCfg64 rxEnvOk 4096 rxDatagramB [] rxStateC1W
      rfl rfl rfl rfl rfl (by decide) rfl (by decide)).2

/-- Claim C3 witness: concrete instances, including an undersized
50-byte buffer consuming a 120-byte datagram whole. -/
theorem claim_C3_witness :
    (rxInit 65536).RxBytes = (((rxInit 65536).pRxPacketList).map dataBytes).sum ∧
    (EslIp4RxComplete rxEnvOk EfiStatus.success rxDatagramC rxStateC4).1.RxBytes
      = rxStateC4.RxBytes + dataBytes rxDatagramC ∧
    (EslIp4Receive rxCfg64 rxEnvOk false 50 true rxStateC3).1.RxBytes
      = rxStateC3.RxBytes - dataBytes rxDatagramC ∧
    (EslIp4Receive rxCfg64 rxEnvOk false 50 true rxStateC3).1.pRxPacketList = [] ∧
    (EslIp4Receive rxCfg64 rxEnvOk false 50 true rxStateC3).2.1.pDataLength
      = some (min 50 (dataBytes rxDatagramC)) := by
  refine ⟨claim_C3_theorem.1 rxCfg64 65536 _ RxReachable.init,
    claim_C3_theorem.2.1 rxEnvOk EfiStatus.success rxDatagramC rxStateC4
      rfl rfl rfl (by decide), ?_, ?_, ?_⟩
  · exact (claim_C3_theorem.2.2 rxCfg64 rxEnvOk 50 rxDatagramC [] rxStateC3
      rfl rfl rfl).1
  · exact (claim_C3_theorem.2.2 rxCfg64 rxEnvOk 50 rxDatagramC [] rxStateC3
      rfl rfl rfl).2.1
  · exact (claim_C3_theorem.2.2 rxCfg64 rxEnvOk 50 rxDatagramC [] rxStateC3
      rfl rfl rfl).2.2 rfl

/-- Claim C4: in every reachable state at most one receive operation is
outstanding at the driver, and EslIp4RxStart is a no-op whenever a
receive is already pending, close processing has started, or a sticky
receive error is latched. -/
theorem claim_C4_theorem :
    (∀ cfg m s, RxReachable cfg m s → s.outstanding ≤ 1) ∧
    (∀ env s,
        s.pReceivePending = true ∨ PORT_STATE_CLOSE_STARTED ≤ s.portState ∨
          isEfiError s.RxError = true →
        EslIp4RxStart env s = (s, false)) := by
  constructor
  · intro cfg m s h
    have h2 := (rxInv_reachable cfg m s h).2
    rw [h2]
    split <;> omega
  · exact fun env s h => rxStart_noop env s h

/-- Claim C4 witness: the invariant at the initial state and the no-op
behaviour on a state with a pending receive. -/
theorem claim_C4_witness :
    (rxInit 65536).outstanding ≤ 1 ∧
    EslIp4RxStart rxEnvOk rxStateC4 = (rxStateC4, false) := by
  exact ⟨claim_C4_theorem.1 rxCfg64 65536 _ RxReachable.init,
    claim_C4_theorem.2 rxEnvOk rxStateC4 (Or.inl rfl)⟩

/-- Claim C5: a completion error is latched only while no receive error
is outstanding (first error wins); the next EslIp4Receive on an empty
queue returns the latched status mapped to errno and clears it, and the
following EslIp4Receive on the still-empty queue returns
EFI_NOT_READY with EAGAIN. -/
theorem claim_C5_theorem :
    (∀ env status rxData s, isEfiError s.RxError = true →
        (EslIp4RxComplete env status rxData s).1.RxError = s.RxError) ∧
    (∀ env status rxData s, s.RxError = EfiStatus.success →
        isEfiError status = true →
        (EslIp4RxComplete env status rxData s).1.RxError = status) ∧
    (∀ cfg env peek bufferLength addrOk s,
        s.State = SocketState.connected → s.hasPort = true →
        s.pRxPacketList = [] → isEfiError s.RxError = true →
        (EslIp4Receive cfg env peek bufferLength addrOk s).2.1.Status
          = s.RxError ∧
        (EslIp4Receive cfg env peek bufferLength addrOk s).2.1.errno
          = mapRxErrno s.RxError ∧
        (EslIp4Receive cfg env peek bufferLength addrOk s).1.RxError
          = EfiStatus.success ∧
        (EslIp4Receive cfg env peek bufferLength addrOk
            (EslIp4Receive cfg env peek bufferLength addrOk s).1).2.1.Status
          = EfiStatus.notReady ∧
        (EslIp4Receive cfg env peek bufferLength addrOk
            (EslIp4Receive cfg env peek bufferLength addrOk s).1).2.1.errno
          = Errno.eagain) := by
  refine ⟨?_, ?_, ?_⟩
  · intro env status rxData s herr
    simp only [EslIp4RxComplete]
    split_ifs <;> first | exact rxStart_RxError env _ herr | rfl | simp_all
  · intro env status rxData s hok herr
    simp only [EslIp4RxComplete]
    split_ifs <;> simp_all [isEfiError]
  · intro cfg env peek bufferLength addrOk s h1 h2 h3 h4
    simp only [EslIp4Receive, h3, h1, h2]
    simp only [isEfiError] at h4 ⊢
    split_ifs <;> simp_all

/-- Claim C5 witness: concrete instances with a latched device error
surfacing as EIO exactly once. -/
theorem claim_C5_witness :
    (EslIp4RxComplete rxEnvOk EfiStatus.aborted rxDatagramC rxStateC5).1.RxError
      = rxStateC5.RxError ∧
    (EslIp4RxComplete rxEnvOk EfiStatus.deviceError rxDatagramC rxStateC4).1.RxError
      = EfiStatus.deviceError ∧
    (EslIp4Receive rxCfg64 rxEnvOk false 100 true rxStateC5).2.1.Status
      = rxStateC5.RxError ∧
    (EslIp4Receive rxCfg64 rxEnvOk false 100 true rxStateC5).2.1.errno
      = mapRxErrno rxStateC5.RxError ∧
    (EslIp4Receive rxCfg64 rxEnvOk false 100 true rxStateC5).1.RxError
      = EfiStatus.success ∧
    (EslIp4Receive rxCfg64 rxEnvOk false 100 true
        (EslIp4Receive rxCfg64 rxEnvOk false 100 true rxStateC5).1).2.1.Status
      = EfiStatus.notReady ∧
    (EslIp4Receive rxCfg64 rxEnvOk false 100 true
        (EslIp4Receive rxCfg64 rxEnvOk false 100 true rxStateC5).1).2.1.errno
      = Errno.eagain := by
  have h3 := claim_C5_theorem.2.2 rxCfg64 rxEnvOk false 100 true rxStateC5
    rfl rfl rfl (by decide)
  exact ⟨claim_C5_theorem.1 rxEnvOk EfiStatus.aborted rxDatagramC rxStateC5
      (by decide),
    claim_C5_theorem.2.1 rxEnvOk EfiStatus.deviceError rxDatagramC rxStateC4
      rfl (by decide),
    h3.1, h3.2.1, h3.2.2.1, h3.2.2.2.1, h3.2.2.2.2⟩

/-- The generic transmit-start helper does not change TxBytes. -/
theorem txStart_TxBytes (s : TxState) : (EslSocketTxStart s).TxBytes = s.TxBytes := by
  cases hl : s.pTxPacketList with
  | nil => simp [EslSocketTxStart, hl]
  | cons p rest =>
    simp only [EslSocketTxStart, hl]
    split_ifs <;> rfl

/-- The generic transmit-start helper preserves the transmit
accounting invariant. -/
theorem txStart_inv (s : TxState) (h : TxInv s) : TxInv (EslSocketTxStart s) := by
  unfold TxInv at *
  cases hl : s.pTxPacketList with
  | nil =>
    rw [hl] at h
    simp only [EslSocketTxStart, hl]
    exact h
  | cons p rest =>
    rw [hl] at h
    simp only [EslSocketTxStart, hl]
    split_ifs
    · simp only [List.sum_cons, List.sum_append, List.sum_nil] at *
      omega
    · rw [hl]
      exact h

/-- Removing a list element splits the sum. -/
theorem sum_getElem_eraseIdx (l : List Nat) : ∀ i x, l[i]? = some x →
    l.sum = x + (l.eraseIdx i).sum := by
  induction l with
  | nil => intro i x h; simp at h
  | cons a t ih =>
    intro i x h
    cases i with
    | zero =>
      simp only [List.getElem?_cons_zero, Option.some.injEq] at h
      subst h
      simp [List.eraseIdx]
    | succ j =>
      simp only [List.getElem?_cons_succ] at h
      have hs := ih j x h
      simp only [List.eraseIdx, List.sum_cons]
      omega

/-- EslIp4TxComplete preserves the transmit accounting invariant. -/
theorem txComplete_inv (i : Nat) (s : TxState) (h : TxInv s) :
    TxInv (EslIp4TxComplete i s) := by
  unfold EslIp4TxComplete
  cases hg : s.pTxActive[i]? with
  | none => simp only [hg]; exact h
  | some len =>
    simp only [hg]
    apply txStart_inv
    unfold TxInv at *
    have hsum := sum_getElem_eraseIdx s.pTxActive i len hg
    dsimp only
    omega

/-- EslIp4TxBuffer preserves the transmit accounting invariant. -/
theorem txBuffer_inv (env : TxEnv) (bufferLength : Nat) (s : TxState)
    (h : TxInv s) : TxInv (EslIp4TxBuffer env bufferLength s).1 := by
  simp only [EslIp4TxBuffer]
  split_ifs <;> try exact h
  all_goals
    first
      | (apply txStart_inv
         unfold TxInv at *
         simp only [List.sum_append, List.sum_cons, List.sum_nil]
         omega)
      | (unfold TxInv at *
         simp only [List.sum_append, List.sum_cons, List.sum_nil]
         omega)

/-- Every reachable transmit state satisfies the transmit accounting
invariant. -/
theorem txInv_reachable (m : Int) (k : Nat) (s : TxState)
    (h : TxReachable m k s) : TxInv s := by
  induction h with
  | init => unfold TxInv; simp [txInit]
  | step hr hst ih =>
    cases hst with
    | buffer env bufferLength => exact txBuffer_inv env bufferLength _ ih
    | complete i hlt => exact txComplete_inv i _ ih

/-- Claim C7: a buffering EslIp4TxBuffer call increases TxBytes by
exactly the payload length; EslIp4TxComplete decreases it by exactly the
completed packet TotalDataLength; and under every interleaving of
transmit operations the counter never goes negative. -/
theorem claim_C7_theorem :
    (∀ env bufferLength s,
        s.State = SocketState.connected → s.hasPort = true →
        s.TxBytes < s.MaxTxBuf → env.allocStatus = EfiStatus.success →
        s.TxError = EfiStatus.success →
        (EslIp4TxBuffer env bufferLength s).1.TxBytes
            = s.TxBytes + bufferLength ∧
        (EslIp4TxBuffer env bufferLength s).2.Status = EfiStatus.success) ∧
    (∀ (i len : Nat) (s : TxState), s.pTxActive[i]? = some len →
        (EslIp4TxComplete i s).TxBytes = s.TxBytes - len) ∧
    (∀ m k s, TxReachable m k s → 0 ≤ s.TxBytes) := by
  refine ⟨?_, ?_, ?_⟩
  · intro env bufferLength s h1 h2 h3 h4 h5
    simp only [EslIp4TxBuffer]
    split_ifs <;>
      first
        | omega
        | constructor <;> simp_all [isEfiError, txStart_TxBytes]
  · intro i len s hg
    simp only [EslIp4TxComplete, hg]
    rw [txStart_TxBytes]
  · intro m k s h
    have hi := txInv_reachable m k s h
    rw [hi]
    positivity

/-- Claim C7 witness: concrete instances of all three parts. -/
theorem claim_C7_witness :
    ((EslIp4TxBuffer txEnvOk 64 (txInit 131072 1)).1.TxBytes
        = (txInit 131072 1).TxBytes + 64 ∧
      (EslIp4TxBuffer txEnvOk 64 (txInit 131072 1)).2.Status
        = EfiStatus.success) ∧
    (EslIp4TxComplete 0 txStateC7).TxBytes = txStateC7.TxBytes - 10 ∧
    0 ≤ (txInit 131072 1).TxBytes := by
  exact ⟨claim_C7_theorem.1 txEnvOk 64 _ rfl rfl (by decide) rfl rfl,
    claim_C7_theorem.2.1 0 10 txStateC7 (by decide),
    claim_C7_theorem.2.2 131072 1 _ TxReachable.init⟩

/-- Claim C6: on a connected socket whose TxBytes has reached MaxTxBuf,
EslIp4TxBuffer returns EFI_NOT_READY with errno EAGAIN and leaves the
whole state - packet allocation count, transmit FIFO and byte counter -
untouched. -/
theorem claim_C6_theorem :
    ∀ env bufferLength s,
      s.State = SocketState.connected → s.hasPort = true →
      s.MaxTxBuf ≤ s.TxBytes →
      EslIp4TxBuffer env bufferLength s
        = (s, ⟨EfiStatus.notReady, Errno.eagain, 0⟩) := by
  intro env bufferLength s h1 h2 h3
  simp only [EslIp4TxBuffer]
  split_ifs <;> first | rfl | omega | simp_all

/-- Claim C6 witness: the blocked call at a concrete full state. -/
theorem claim_C6_witness :
    EslIp4TxBuffer txEnvOk 64 txStateC6
      = (txStateC6, ⟨EfiStatus.notReady, Errno.eagain, 0⟩) :=
  claim_C6_theorem txEnvOk 64 txStateC6 rfl rfl (by decide)

/-- Claim C2 (amended): with a sticky transmit error latched, the next
EslIp4TxBuffer call on a connected socket discards the newly built
packet (FIFO and TxBytes unchanged) and returns the latched status with
errno EIO; the latched error is NOT cleared by the call, so further
sends keep returning it until it is cleared elsewhere. -/
theorem claim_C2_theorem :
    ∀ env bufferLength s,
      s.State = SocketState.connected → s.hasPort = true →
      s.TxBytes < s.MaxTxBuf → env.allocStatus = EfiStatus.success →
      isEfiError s.TxError = true →
      (EslIp4TxBuffer env bufferLength s).2.Status = s.TxError ∧
      (EslIp4TxBuffer env bufferLength s).2.errno = Errno.eio ∧
      (EslIp4TxBuffer env bufferLength s).2.pDataLength = 0 ∧
      (EslIp4TxBuffer env bufferLength s).1.pTxPacketList = s.pTxPacketList ∧
      (EslIp4TxBuffer env bufferLength s).1.TxBytes = s.TxBytes ∧
      (EslIp4TxBuffer env bufferLength s).1.TxError = s.TxError := by
  intro env bufferLength s h1 h2 h3 h4 h5
  simp only [EslIp4TxBuffer]
  split_ifs <;>
    first
      | omega
      | exact ⟨rfl, rfl, rfl, rfl, rfl, rfl⟩
      | simp_all [isEfiError]

/-- Claim C2 counterexample: with deviceError latched, TxBuffer returns
the error with errno EIO, but the error stays latched and an immediate
second TxBuffer fails the same way - refuting the claim that the call
clears the latched error so that subsequent sends may succeed again. -/
theorem claim_C2_counterexample :
    isEfiError txStateC2.TxError = true ∧
    (EslIp4TxBuffer txEnvOk 64 txStateC2).2.Status = EfiStatus.deviceError ∧
    (EslIp4TxBuffer txEnvOk 64 txStateC2).2.errno = Errno.eio ∧
    (EslIp4TxBuffer txEnvOk 64 txStateC2).1.TxError = EfiStatus.deviceError ∧
    (EslIp4TxBuffer txEnvOk 64
        (EslIp4TxBuffer txEnvOk 64 txStateC2).1).2.Status
      = EfiStatus.deviceError ∧
    (EslIp4TxBuffer txEnvOk 64
        (EslIp4TxBuffer txEnvOk 64 txStateC2).1).2.errno = Errno.eio := by
  decide

/-- Claim C2 witness: the amended claim at a concrete state. -/
theorem claim_C2_witness :
    (EslIp4TxBuffer txEnvOk 64 txStateC2).2.Status = txStateC2.TxError ∧
    (EslIp4TxBuffer txEnvOk 64 txStateC2).2.errno = Errno.eio ∧
    (EslIp4TxBuffer txEnvOk 64 txStateC2).2.pDataLength = 0 ∧
    (EslIp4TxBuffer txEnvOk 64 txStateC2).1.pTxPacketList
      = txStateC2.pTxPacketList ∧
    (EslIp4TxBuffer txEnvOk 64 txStateC2).1.TxBytes = txStateC2.TxBytes ∧
    (EslIp4TxBuffer txEnvOk 64 txStateC2).1.TxError = txStateC2.TxError :=
  claim_C2_theorem txEnvOk 64 txStateC2 rfl rfl (by decide) rfl (by decide)

/-- The bind service walk never touches errno. -/
theorem bindWalk_errno (a : SockAddrIn) (l : List Bool) :
    ∀ acc, (bindWalk a l acc).1.errno = acc.1.errno := by
  induction l with
  | nil => intro acc; rfl
  | cons b rest ih =>
    intro acc
    simp only [bindWalk]
    rw [ih]
    split_ifs <;> rfl

/-- Every port produced by the bind service walk is a freshly allocated
port or was already owned. -/
theorem bindWalk_mem (a : SockAddrIn) (l : List Bool) :
    ∀ acc p, p ∈ (bindWalk a l acc).1.pPortList →
      p = newIp4Port a ∨ p ∈ acc.1.pPortList := by
  induction l with
  | nil => intro acc p h; exact Or.inr h
  | cons b rest ih =>
    intro acc p h
    simp only [bindWalk] at h
    rcases ih _ p h with h2 | h2
    · exact Or.inl h2
    · split_ifs at h2 with hb
      · simp only [List.mem_cons] at h2
        rcases h2 with h3 | h3
        · exact Or.inl h3
        · exact Or.inr h3
      · exact Or.inr h2

/-- The bind service walk leaves the port list empty exactly when it
started empty and every service failed. -/
theorem bindWalk_nil (a : SockAddrIn) (l : List Bool) :
    ∀ acc, (bindWalk a l acc).1.pPortList = [] ↔
      acc.1.pPortList = [] ∧ ∀ b ∈ l, b = false := by
  induction l with
  | nil => intro acc; simp [bindWalk]
  | cons b rest ih =>
    intro acc
    simp only [bindWalk]
    rw [ih]
    split_ifs with hb
    · simp [hb]
    · simp only [List.mem_cons]
      constructor
      · rintro ⟨h1, h2⟩
        exact ⟨h1, fun c hc => hc.elim (fun h => h ▸ Bool.eq_false_iff.mpr hb)
          (fun h => h2 c h)⟩
      · rintro ⟨h1, h2⟩
        exact ⟨h1, fun c hc => h2 c (Or.inr hc)⟩

/-- EslIp4Bind with a valid address length that produces no port returns
EFI_INVALID_PARAMETER with errno EADDRNOTAVAIL. -/
theorem bind_empty_result (services : List Bool) (a : SockAddrIn)
    (sockAddrLength : Nat) (s : ConnSocket)
    (hlen : minSockAddrInLength ≤ sockAddrLength)
    (hempty : (EslIp4Bind services a sockAddrLength s).1.pPortList = []) :
    (EslIp4Bind services a sockAddrLength s).2 = EfiStatus.invalidParameter ∧
    (EslIp4Bind services a sockAddrLength s).1.errno = Errno.eaddrnotavail := by
  simp only [EslIp4Bind, if_pos hlen] at *
  split_ifs at hempty ⊢ with h
  · exact ⟨rfl, rfl⟩
  · exact absurd hempty h

/-- Splitting a 32-bit value into its four bytes and reassembling them
restores the value. -/
theorem wordOfIp4Addr_ip4AddrOfWord (x : Nat) (h : x < 4294967296) :
    wordOfIp4Addr (ip4AddrOfWord x) = x := by
  simp only [wordOfIp4Addr, ip4AddrOfWord]
  omega

/-- Claim C8 (amended): with a remote address of at least the minimum
sockaddr_in length, EslIp4Connect binds implicitly when the socket owns
no port, stores the remote address bytes into the destination address of
every owned port, and returns success with errno 0 exactly when at least
one port exists afterwards; when no port exists afterwards it surfaces
the implicit bind failure, EFI_INVALID_PARAMETER with errno
EADDRNOTAVAIL, not network-unreachable. -/
theorem claim_C8_theorem :
    ∀ (services : List Bool) (remote : SockAddrIn) (sockAddrLength : Nat)
      (s : ConnSocket),
      minSockAddrInLength ≤ sockAddrLength →
      (((EslIp4Connect services remote sockAddrLength s).2 = EfiStatus.success ∧
          (EslIp4Connect services remote sockAddrLength s).1.errno = Errno.ok) ↔
        (EslIp4Connect services remote sockAddrLength s).1.pPortList ≠ []) ∧
      (∀ p ∈ (EslIp4Connect services remote sockAddrLength s).1.pPortList,
        p.DestinationAddress = ip4AddrOfWord remote.sin_addr) ∧
      ((EslIp4Connect services remote sockAddrLength s).1.pPortList = [] →
        (EslIp4Connect services remote sockAddrLength s).2
            = EfiStatus.invalidParameter ∧
        (EslIp4Connect services remote sockAddrLength s).1.errno
            = Errno.eaddrnotavail) := by
  intro services remote sockAddrLength s hlen
  simp only [EslIp4Connect, EslSocketBind, if_pos hlen]
  split_ifs with hp hb
  · have hres := bind_empty_result services ⟨sizeofSockAddrIn, AF_INET, 0, 0⟩
      sizeofSockAddrIn { s with errno := Errno.enetunreach } (by decide) hb
    refine ⟨?_, ?_, fun _ => ⟨hres.1, hres.2⟩⟩
    · rw [hres.1, hres.2]
      simp [hb]
    · rw [hb]
      intro p hmem
      simp at hmem
  · refine ⟨?_, ?_, ?_⟩
    · simp [List.map_eq_nil_iff, hb]
    · intro p hmem
      rcases List.mem_map.mp hmem with ⟨q, hq, rfl⟩
      rfl
    · intro habs
      rw [List.map_eq_nil_iff] at habs
      exact absurd habs hb
  · refine ⟨?_, ?_, ?_⟩
    · simp [List.map_eq_nil_iff, hp]
    · intro p hmem
      rcases List.mem_map.mp hmem with ⟨q, hq, rfl⟩
      rfl
    · intro habs
      rw [List.map_eq_nil_iff] at habs
      exact absurd habs hp

/-- Claim C8 counterexample: connecting an unbound socket with no
registered IPv4 services fails with EFI_INVALID_PARAMETER and errno
EADDRNOTAVAIL from the implicit bind - not with network-unreachable as
the claim states, because the initial EFI_NETWORK_UNREACHABLE assumption
of EslIp4Connect is overwritten by the EslSocketBind result. -/
theorem claim_C8_counterexample :
    (EslIp4Connect [] (remoteAddr 16909060) 16 connSockEmpty).2
        = EfiStatus.invalidParameter ∧
    (EslIp4Connect [] (remoteAddr 16909060) 16 connSockEmpty).1.errno
        = Errno.eaddrnotavail ∧
    (EslIp4Connect [] (remoteAddr 16909060) 16 connSockEmpty).2
        ≠ EfiStatus.networkUnreachable ∧
    (EslIp4Connect [] (remoteAddr 16909060) 16 connSockEmpty).1.errno
        ≠ Errno.enetunreach := by
  decide

/-- Claim C8 witness: the amended claim at one registered service and an
unbound socket. -/
theorem claim_C8_witness :
    (((EslIp4Connect [true] (remoteAddr 16909060) 16 connSockEmpty).2
          = EfiStatus.success ∧
        (EslIp4Connect [true] (remoteAddr 16909060) 16 connSockEmpty).1.errno
          = Errno.ok) ↔
      (EslIp4Connect [true] (remoteAddr 16909060) 16 connSockEmpty).1.pPortList
        ≠ []) ∧
    (∀ p ∈ (EslIp4Connect [true] (remoteAddr 16909060) 16
        connSockEmpty).1.pPortList,
      p.DestinationAddress = ip4AddrOfWord (remoteAddr 16909060).sin_addr) ∧
    ((EslIp4Connect [true] (remoteAddr 16909060) 16 connSockEmpty).1.pPortList
        = [] →
      (EslIp4Connect [true] (remoteAddr 16909060) 16 connSockEmpty).2
          = EfiStatus.invalidParameter ∧
      (EslIp4Connect [true] (remoteAddr 16909060) 16 connSockEmpty).1.errno
          = Errno.eaddrnotavail) :=
  claim_C8_theorem [true] (remoteAddr 16909060) 16 connSockEmpty (by decide)

/-- Claim C9: the four address bytes stored in network order by
EslIp4Connect are reassembled by EslIp4GetRemoteAddress (on a socket
with a single port and a large enough buffer) into the same 32-bit
sin_addr value. -/
theorem claim_C9_theorem :
    ∀ (x sockAddrLength addressLength : Nat) (services : List Bool)
      (p : ConnPort) (s : ConnSocket),
      x < 4294967296 → s.pPortList = [p] →
      minSockAddrInLength ≤ sockAddrLength →
      sizeofSockAddrIn ≤ addressLength →
      (EslIp4GetRemoteAddress addressLength
          (EslIp4Connect services (remoteAddr x) sockAddrLength s).1).2.address
        = some ⟨sizeofSockAddrIn, AF_INET, 0, x⟩ := by
  intro x sockAddrLength addressLength services p s hx hp hlen halen
  simp only [EslIp4Connect, EslSocketBind, if_pos hlen]
  have hcond : ¬(({ s with errno := Errno.enetunreach } : ConnSocket).pPortList
      = []) := by
    simp [hp]
  rw [if_neg hcond]
  simp only [hp, List.map_cons, List.map_nil]
  simp only [EslIp4GetRemoteAddress, if_pos halen]
  simp [wordOfIp4Addr_ip4AddrOfWord x hx, remoteAddr]

/-- Claim C9 witness: round trip of the address 1.2.3.4 (0x01020304). -/
theorem claim_C9_witness :
    (EslIp4GetRemoteAddress 16
        (EslIp4Connect [] (remoteAddr 16909060) 16 connSockOne).1).2.address
      = some ⟨sizeofSockAddrIn, AF_INET, 0, 16909060⟩ :=
  claim_C9_theorem 16909060 16 16 [] connPortW connSockOne (by decide) rfl
    (by decide) (by decide)

/-- Claim C10: EslIp4GetLocalAddress and EslIp4GetRemoteAddress require
exactly one owned port: with zero or several ports both return
EFI_NOT_STARTED with errno ENOTCONN leaving the caller buffer
unwritten, success implies a single port, and EslIp4Bind with two
registered services indeed creates two ports. -/
theorem claim_C10_theorem :
    (∀ (addressLength : Nat) (s : ConnSocket), s.pPortList.length ≠ 1 →
        EslIp4GetLocalAddress addressLength s
          = ({ s with errno := Errno.enotconn },
             ⟨EfiStatus.notStarted, Errno.enotconn, none⟩) ∧
        EslIp4GetRemoteAddress addressLength s
          = ({ s with errno := Errno.enotconn },
             ⟨EfiStatus.notStarted, Errno.enotconn, none⟩)) ∧
    (∀ (addressLength : Nat) (s : ConnSocket),
        (EslIp4GetLocalAddress addressLength s).2.Status = EfiStatus.success →
        s.pPortList.length = 1) ∧
    (∀ (addressLength : Nat) (s : ConnSocket),
        (EslIp4GetRemoteAddress addressLength s).2.Status = EfiStatus.success →
        s.pPortList.length = 1) ∧
    (EslIp4Bind [true, true] (remoteAddr 0) 16 connSockEmpty).1.pPortList.length
      = 2 := by
  refine ⟨?_, ?_, ?_, by decide⟩
  · intro addressLength s hlen
    match hq : s.pPortList with
    | [] => simp [EslIp4GetLocalAddress, EslIp4GetRemoteAddress, hq]
    | [p] => rw [hq] at hlen; simp at hlen
    | p :: q :: rest =>
      simp [EslIp4GetLocalAddress, EslIp4GetRemoteAddress, hq]
  · intro addressLength s hst
    match hq : s.pPortList with
    | [] => simp [EslIp4GetLocalAddress, hq] at hst
    | [p] => rfl
    | p :: q :: rest => simp [EslIp4GetLocalAddress, hq] at hst
  · intro addressLength s hst
    match hq : s.pPortList with
    | [] => simp [EslIp4GetRemoteAddress, hq] at hst
    | [p] => rfl
    | p :: q :: rest => simp [EslIp4GetRemoteAddress, hq] at hst

/-- Claim C10 witness: the address queries on two-port and zero-port
sockets, and success on the single-port socket. -/
theorem claim_C10_witness :
    (EslIp4GetLocalAddress 16 connSockTwo
        = ({ connSockTwo with errno := Errno.enotconn },
           ⟨EfiStatus.notStarted, Errno.enotconn, none⟩) ∧
      EslIp4GetRemoteAddress 16 connSockTwo
        = ({ connSockTwo with errno := Errno.enotconn },
           ⟨EfiStatus.notStarted, Errno.enotconn, none⟩)) ∧
    (EslIp4GetLocalAddress 16 connSockEmpty
        = ({ connSockEmpty with errno := Errno.enotconn },
           ⟨EfiStatus.notStarted, Errno.enotconn, none⟩) ∧
      EslIp4GetRemoteAddress 16 connSockEmpty
        = ({ connSockEmpty with errno := Errno.enotconn },
           ⟨EfiStatus.notStarted, Errno.enotconn, none⟩)) ∧
    connSockOne.pPortList.length = 1 :=
  ⟨claim_C10_theorem.1 16 connSockTwo (by decide),
   claim_C10_theorem.1 16 connSockEmpty (by decide),
   claim_C10_theorem.2.1 16 connSockOne (by decide)⟩
